import Mathlib

/-!
A shallow embedding of the default export of `vite.config.js`.

The file evaluates one object literal and hands it to `defineConfig`.  The
literal is built from string, boolean and `undefined` literals, from the
results of three plugin factories imported from packages, and from one call
of Node's `path.resolve` on `__dirname`.  The values of the literal are
embedded as a tree of JavaScript values; the imported functions, whose code
belongs to other packages, are parameters of the embedding.
-/

set_option autoImplicit false

namespace ViteConfig

/-- JavaScript values as they occur in the configuration literal.  An object
is the list of its own properties in insertion order, so a property written
with the value `undefined` is still a property.  `host` carries a value made
by an imported package (a plugin instance); its type `P` is left abstract. -/
inductive JSValue (P : Type) where
  | undefined : JSValue P
  | bool (b : Bool) : JSValue P
  | str (s : String) : JSValue P
  | arr (items : List (JSValue P)) : JSValue P
  | obj (props : List (String × JSValue P)) : JSValue P
  | host (p : P) : JSValue P

namespace JSValue

variable {P : Type}

/-- Property read `v[key]`: the value stored under `key`, `undefined` when
the object has no such property or `v` is not an object. -/
def get (v : JSValue P) (key : String) : JSValue P :=
  match v with
  | obj props => (props.lookup key).getD undefined
  | _ => undefined

/-- Chained property read `v[k₁][k₂]…`. -/
def getPath (v : JSValue P) (path : List String) : JSValue P :=
  path.foldl get v

/-- The own property names of an object in insertion order, as `Object.keys`
lists them; no names for a value that is not an object. -/
def keys (v : JSValue P) : List String :=
  match v with
  | obj props => props.map Prod.fst
  | _ => []

/-- The value `v` with the value at the end of `path` replaced by `x`; every
property off the path is kept as it is.  A path that leaves the objects of
`v` changes nothing. -/
def setPath : JSValue P → List String → JSValue P → JSValue P
  | _, [], x => x
  | obj props, k :: ks, x =>
      obj (props.map fun kv => if kv.1 = k then (kv.1, setPath kv.2 ks x) else kv)
  | v, _ :: _, _ => v

end JSValue

/-- What `vite.config.js` imports from packages and calls while the literal
is evaluated, as the functions behave during one evaluation of the file, in
which each of them is called once.  A call passes the list of its arguments.
`resolve` is Node's `path.resolve`, which takes path segments and returns one
path string.  What the factories do from one evaluation to the next is
described by `Packages`. -/
structure Imports (P : Type) where
  svelte : List (JSValue P) → JSValue P
  createHtmlPlugin : List (JSValue P) → JSValue P
  viteSingleFile : List (JSValue P) → JSValue P
  resolve : List String → String

/-- Modelled from the spec: `defineConfig` is imported from the `vite`
package, whose code is not part of this repository.  The spec takes the
exported value to be "the configuration object itself", so the helper hands
its argument back unchanged. -/
def defineConfig {P : Type} (config : JSValue P) : JSValue P := config

/-- The default export of `vite.config.js`, for the imported functions `imp`
and the directory `__dirname` the file is loaded from. -/
def defaultExport {P : Type} (imp : Imports P) (__dirname : String) : JSValue P :=
  defineConfig (.obj [
    ("plugins", .arr [
      imp.svelte [],
      imp.createHtmlPlugin [.obj [
        ("minify", .bool true)]],
      imp.viteSingleFile []]),
    ("build", .obj [
      ("outDir", .str "docs"),
      ("rollupOptions", .obj [
        ("input", .str (imp.resolve [__dirname, "index.html"])),
        ("output", .obj [
          ("inlineDynamicImports", .bool true),
          ("manualChunks", .undefined)])])])])

/-- A concrete set of imports used to evaluate the configuration: each plugin
factory returns a host value naming the factory and the number of arguments
it received, and `resolve` joins its segments with `/`. -/
def sampleImports : Imports (String × Nat) where
  svelte := fun args => .host ("svelte", args.length)
  createHtmlPlugin := fun args => .host ("createHtmlPlugin", args.length)
  viteSingleFile := fun args => .host ("viteSingleFile", args.length)
  resolve := fun segments => "/".intercalate segments

/-! Properties of the exported configuration. -/

/-- The path of the output directory option inside the configuration. -/
def outDirPath : List String := ["build", "outDir"]

/-- The path of the Rollup entry option inside the configuration. -/
def inputPath : List String := ["build", "rollupOptions", "input"]

/-- The path of the Rollup output options inside the configuration. -/
def outputPath : List String := ["build", "rollupOptions", "output"]

/-- The imported packages over the state `σ` of the running process.  A
plugin factory is called afresh each time the file is evaluated: the call
reads the state, returns a plugin value and leaves a new state, so two calls
with the same arguments need not return the same value.  `resolve` is Node's
`path.resolve` as in `Imports`. -/
structure Packages (σ P : Type) where
  svelte : List (JSValue P) → σ → JSValue P × σ
  createHtmlPlugin : List (JSValue P) → σ → JSValue P × σ
  viteSingleFile : List (JSValue P) → σ → JSValue P × σ
  resolve : List String → String

/-- One evaluation of `vite.config.js` by a process in state `w`, from the
directory `__dirname`: the three factory calls run in the order the literal
lists them, each in the state the call before left, then the literal is
handed to `defineConfig`.  The result is the exported configuration and the
state after the evaluation. -/
def loadConfig {σ P : Type} (pk : Packages σ P) (__dirname : String) (w : σ) :
    JSValue P × σ :=
  let p1 := pk.svelte [] w
  let p2 := pk.createHtmlPlugin [.obj [
        ("minify", .bool true)]] p1.2
  let p3 := pk.viteSingleFile [] p2.2
  (defineConfig (.obj [
    ("plugins", .arr [
      p1.1,
      p2.1,
      p3.1]),
    ("build", .obj [
      ("outDir", .str "docs"),
      ("rollupOptions", .obj [
        ("input", .str (pk.resolve [__dirname, "index.html"])),
        ("output", .obj [
          ("inlineDynamicImports", .bool true),
          ("manualChunks", .undefined)])])])]), p3.2)

/-- The imported functions as they behave during the evaluation that starts
in state `w`: `svelte` is called in `w`, `createHtmlPlugin` in the state
`svelte()` left, `viteSingleFile` in the state the call of `createHtmlPlugin`
left. -/
def Packages.during {σ P : Type} (pk : Packages σ P) (w : σ) : Imports P where
  svelte := fun args => (pk.svelte args w).1
  createHtmlPlugin := fun args => (pk.createHtmlPlugin args (pk.svelte [] w).2).1
  viteSingleFile := fun args =>
    (pk.viteSingleFile args
      (pk.createHtmlPlugin [.obj [("minify", .bool true)]] (pk.svelte [] w).2).2).1
  resolve := pk.resolve

/-- A concrete set of packages whose factories return a fresh plugin object
on every call: the state counts the objects made so far, and a call returns a
host value carrying the factory's name and the next object number.  `resolve`
joins its segments with `/`. -/
def freshPackages : Packages Nat (String × Nat) where
  svelte := fun _ n => (.host ("svelte", n), n + 1)
  createHtmlPlugin := fun _ n => (.host ("createHtmlPlugin", n), n + 1)
  viteSingleFile := fun _ n => (.host ("viteSingleFile", n), n + 1)
  resolve := fun segments => "/".intercalate segments

/-- The configuration an evaluation exports is the literal of `defaultExport`
filled with what the imported functions return during that evaluation. -/
theorem loadConfig_eq_defaultExport {σ P : Type} (pk : Packages σ P) (dir : String)
    (w : σ) : (loadConfig pk dir w).1 = defaultExport (pk.during w) dir := by
  simp [loadConfig, defaultExport, Packages.during]

/-- C1: for every directory the file is loaded from, `build.outDir` of the
exported configuration is the string `'docs'`; it is the same value for any
other directory, and the string is a relative path: it does not begin with
the separator `/`. -/
theorem build_outDir_is_docs {P : Type} (imp : Imports P) (dir : String) :
    ((defaultExport imp dir).getPath outDirPath = .str "docs")
    ∧ (∀ other : String,
        (defaultExport imp other).getPath outDirPath
          = (defaultExport imp dir).getPath outDirPath)
    ∧ (∀ s : String, (defaultExport imp dir).getPath outDirPath = .str s →
        s.front = 'd' ∧ s.front ≠ '/') := by
  refine ⟨?_, ?_, ?_⟩
  · simp [defaultExport, defineConfig, outDirPath, JSValue.getPath, JSValue.get, List.lookup]
  · intro other
    simp [defaultExport, defineConfig, outDirPath, JSValue.getPath, JSValue.get, List.lookup]
  · intro s hs
    simp [defaultExport, defineConfig, outDirPath, JSValue.getPath, JSValue.get, List.lookup] at hs
    subst hs
    decide

/-- C2: for every directory `dir` the file is loaded from,
`build.rollupOptions.input` is one string, the result of
`path.resolve(dir, 'index.html')`; it is neither an array nor an object of
several entries.  Whenever `resolve` places the name directly under the
directory, as `path.resolve` does for an absolute normalised directory, the
entry is the file `index.html` directly inside `dir`. -/
theorem rollup_input_is_resolved_index_html {P : Type} (imp : Imports P) (dir : String) :
    ((defaultExport imp dir).getPath inputPath = .str (imp.resolve [dir, "index.html"]))
    ∧ (∀ items : List (JSValue P), (defaultExport imp dir).getPath inputPath ≠ .arr items)
    ∧ (∀ props : List (String × JSValue P),
        (defaultExport imp dir).getPath inputPath ≠ .obj props)
    ∧ (imp.resolve [dir, "index.html"] = dir ++ "/index.html" →
        (defaultExport imp dir).getPath inputPath = .str (dir ++ "/index.html")) := by
  have h : (defaultExport imp dir).getPath inputPath
      = .str (imp.resolve [dir, "index.html"]) := by
    simp [defaultExport, defineConfig, inputPath, JSValue.getPath, JSValue.get, List.lookup]
  refine ⟨h, ?_, ?_, ?_⟩
  · intro items hi
    rw [h] at hi
    cases hi
  · intro props hp
    rw [h] at hp
    cases hp
  · intro hres
    rw [h, hres]

/-- Evaluation of C2 with `sampleImports` for the directory `/srv/app`: the
entry is the one string `/srv/app/index.html`. -/
theorem rollup_input_sample :
    (defaultExport sampleImports "/srv/app").getPath inputPath
      = .str ("/srv/app" ++ "/index.html") :=
  (rollup_input_is_resolved_index_html sampleImports "/srv/app").2.2.2 (by decide)

/-- C3: the `plugins` property of the exported configuration is an array of
exactly three entries, in this order: the result of `svelte()` called with no
argument, the result of `createHtmlPlugin` called with the one argument
`{minify: true}`, an object whose only property is `minify` with the boolean
`true`, and the result of `viteSingleFile()` called with no argument. -/
theorem plugins_are_svelte_html_singlefile {P : Type} (imp : Imports P) (dir : String) :
    ∃ (items : List (JSValue P)) (options : JSValue P),
      (defaultExport imp dir).get "plugins" = .arr items
      ∧ items.length = 3
      ∧ items = [imp.svelte [], imp.createHtmlPlugin [options], imp.viteSingleFile []]
      ∧ options = .obj [("minify", .bool true)]
      ∧ options.keys = ["minify"]
      ∧ options.get "minify" = .bool true := by
  refine ⟨[imp.svelte [], imp.createHtmlPlugin [.obj [("minify", .bool true)]],
    imp.viteSingleFile []], .obj [("minify", .bool true)], ?_, rfl, rfl, rfl, rfl, ?_⟩
  · simp [defaultExport, defineConfig, JSValue.get, List.lookup]
  · simp [JSValue.get, List.lookup]

/-- C4: `build.rollupOptions.output` of the exported configuration is an
object with exactly two properties: `inlineDynamicImports` with the boolean
`true` and `manualChunks` with the value `undefined`. -/
theorem rollup_output_has_two_flags {P : Type} (imp : Imports P) (dir : String) :
    ((defaultExport imp dir).getPath outputPath
        = .obj [("inlineDynamicImports", .bool true), ("manualChunks", .undefined)])
    ∧ (((defaultExport imp dir).getPath outputPath).keys
        = ["inlineDynamicImports", "manualChunks"])
    ∧ (((defaultExport imp dir).getPath outputPath).keys.length = 2)
    ∧ (((defaultExport imp dir).getPath outputPath).get "inlineDynamicImports" = .bool true)
    ∧ (((defaultExport imp dir).getPath outputPath).get "manualChunks" = .undefined) := by
  have h : (defaultExport imp dir).getPath outputPath
      = .obj [("inlineDynamicImports", .bool true), ("manualChunks", .undefined)] := by
    simp [defaultExport, defineConfig, outputPath, JSValue.getPath, JSValue.get, List.lookup]
  rw [h]
  refine ⟨rfl, ?_, ?_, ?_, ?_⟩ <;> simp [JSValue.keys, JSValue.get, List.lookup]

/-- C5, amended: the configuration an evaluation exports is determined by
the directory and by what the three plugin factories return during that
evaluation.  For any two evaluations, from directories `d1` and `d2` in
states `w1` and `w2`: each `plugins` list holds the results of the same three
calls, `svelte()`, `createHtmlPlugin({minify: true})` and `viteSingleFile()`,
in this order; `build.outDir` and `build.rollupOptions.output` agree; the
`build` objects differ only in `rollupOptions.input`; the configurations
differ only in the plugin values and in `build.rollupOptions.input`; when the
factories returned the same plugin values they differ only in
`build.rollupOptions.input`; for `d1 = d2` the `build` objects are equal, and
the configurations are equal when the plugin values are. -/
theorem loads_agree_outside_plugin_values_and_input {σ P : Type} (pk : Packages σ P)
    (d1 d2 : String) (w1 w2 : σ) :
    ((loadConfig pk d1 w1).1.get "plugins"
        = .arr [(pk.during w1).svelte [],
            (pk.during w1).createHtmlPlugin [.obj [("minify", .bool true)]],
            (pk.during w1).viteSingleFile []])
    ∧ ((loadConfig pk d2 w2).1.get "plugins"
        = .arr [(pk.during w2).svelte [],
            (pk.during w2).createHtmlPlugin [.obj [("minify", .bool true)]],
            (pk.during w2).viteSingleFile []])
    ∧ ((loadConfig pk d1 w1).1.getPath outDirPath = (loadConfig pk d2 w2).1.getPath outDirPath)
    ∧ ((loadConfig pk d1 w1).1.getPath outputPath = (loadConfig pk d2 w2).1.getPath outputPath)
    ∧ (((loadConfig pk d1 w1).1.get "build").setPath ["rollupOptions", "input"]
          ((loadConfig pk d2 w2).1.getPath inputPath)
        = (loadConfig pk d2 w2).1.get "build")
    ∧ ((((loadConfig pk d1 w1).1.setPath ["plugins"]
            ((loadConfig pk d2 w2).1.get "plugins")).setPath inputPath
          ((loadConfig pk d2 w2).1.getPath inputPath))
        = (loadConfig pk d2 w2).1)
    ∧ ((loadConfig pk d1 w1).1.get "plugins" = (loadConfig pk d2 w2).1.get "plugins" →
        (loadConfig pk d1 w1).1.setPath inputPath ((loadConfig pk d2 w2).1.getPath inputPath)
          = (loadConfig pk d2 w2).1)
    ∧ (d1 = d2 → (loadConfig pk d1 w1).1.get "build" = (loadConfig pk d2 w2).1.get "build")
    ∧ (d1 = d2 →
        (loadConfig pk d1 w1).1.get "plugins" = (loadConfig pk d2 w2).1.get "plugins" →
        (loadConfig pk d1 w1).1 = (loadConfig pk d2 w2).1) := by
  refine ⟨?_, ?_, ?_, ?_, ?_, ?_, ?_, ?_, ?_⟩
  · simp [loadConfig, defineConfig, Packages.during, JSValue.get, List.lookup]
  · simp [loadConfig, defineConfig, Packages.during, JSValue.get, List.lookup]
  · simp [loadConfig, defineConfig, outDirPath, JSValue.getPath, JSValue.get, List.lookup]
  · simp [loadConfig, defineConfig, outputPath, JSValue.getPath, JSValue.get, List.lookup]
  · simp [loadConfig, defineConfig, inputPath, JSValue.getPath, JSValue.get, List.lookup,
      JSValue.setPath]
  · simp [loadConfig, defineConfig, inputPath, JSValue.getPath, JSValue.get, List.lookup,
      JSValue.setPath]
  · intro h
    simp [loadConfig, defineConfig, JSValue.get, List.lookup] at h
    simp [loadConfig, defineConfig, inputPath, JSValue.getPath, JSValue.get, List.lookup,
      JSValue.setPath, h]
  · intro h
    simp [loadConfig, defineConfig, JSValue.get, List.lookup, h]
  · intro h hp
    simp [loadConfig, defineConfig, JSValue.get, List.lookup] at hp
    simp [loadConfig, defineConfig, h, hp]

/-- Evaluation of C5 with `freshPackages`.  Two evaluations that start in the
same state, from the directories `/srv/a` and `/srv/b`: the factories return
the same plugin values, and replacing the entry of the first configuration by
`/srv/b/index.html` gives the second.  Two evaluations from the one directory
`/srv/app` in the states 0 and 3: the `build` objects are equal. -/
theorem loads_from_equal_state_differ_only_in_input :
    ((loadConfig freshPackages "/srv/a" 0).1.setPath inputPath (.str "/srv/b/index.html")
      = (loadConfig freshPackages "/srv/b" 0).1)
    ∧ ((loadConfig freshPackages "/srv/app" 0).1.get "build"
      = (loadConfig freshPackages "/srv/app" 3).1.get "build") := by
  have hin : (loadConfig freshPackages "/srv/b" 0).1.getPath inputPath
      = .str "/srv/b/index.html" := by
    simp [loadConfig, defineConfig, inputPath, JSValue.getPath, JSValue.get, List.lookup]
    decide
  have key :=
    (loads_agree_outside_plugin_values_and_input freshPackages "/srv/a" "/srv/b" 0 0).2.2.2.2.2.2.1
      (by simp [loadConfig, defineConfig, JSValue.get, List.lookup])
  rw [hin] at key
  exact ⟨key,
    (loads_agree_outside_plugin_values_and_input freshPackages "/srv/app" "/srv/app"
      0 3).2.2.2.2.2.2.2.1 rfl⟩

/-- C5 as stated fails: `freshPackages` evaluates the file twice from the one
directory `/srv/app`, the second time in the state the first evaluation left.
The first evaluation makes the plugin objects 0, 1, 2 and the second the
objects 3, 4, 5, so the two `plugins` lists differ and the two configurations
are not equal, although the directory is the same. -/
theorem two_loads_of_one_directory_differ :
    ((loadConfig freshPackages "/srv/app" 0).2 = 3)
    ∧ ((loadConfig freshPackages "/srv/app" 0).1.get "plugins"
        = .arr [.host ("svelte", 0), .host ("createHtmlPlugin", 1),
            .host ("viteSingleFile", 2)])
    ∧ ((loadConfig freshPackages "/srv/app" 3).1.get "plugins"
        = .arr [.host ("svelte", 3), .host ("createHtmlPlugin", 4),
            .host ("viteSingleFile", 5)])
    ∧ ((loadConfig freshPackages "/srv/app" 0).1.get "plugins"
        ≠ (loadConfig freshPackages "/srv/app" 3).1.get "plugins")
    ∧ ((loadConfig freshPackages "/srv/app" 0).1
        ≠ (loadConfig freshPackages "/srv/app" 3).1) := by
  have h0 : (loadConfig freshPackages "/srv/app" 0).1.get "plugins"
      = .arr [.host ("svelte", 0), .host ("createHtmlPlugin", 1),
          .host ("viteSingleFile", 2)] := by
    simp [loadConfig, defineConfig, freshPackages, JSValue.get, List.lookup]
  have h3 : (loadConfig freshPackages "/srv/app" 3).1.get "plugins"
      = .arr [.host ("svelte", 3), .host ("createHtmlPlugin", 4),
          .host ("viteSingleFile", 5)] := by
    simp [loadConfig, defineConfig, freshPackages, JSValue.get, List.lookup]
  have hne : (loadConfig freshPackages "/srv/app" 0).1.get "plugins"
      ≠ (loadConfig freshPackages "/srv/app" 3).1.get "plugins" := by
    rw [h0, h3]
    simp
  refine ⟨?_, h0, h3, hne, ?_⟩
  · simp [loadConfig, freshPackages]
  · intro heq
    exact hne (congrArg (fun v => v.get "plugins") heq)

end ViteConfig
